import Mathlib

/-!
Verification of the Datalix transformation-pipeline engine.

A shallow embedding, in Lean 4, of the core components of the Datalix
repository: the tabular dataset model, the quality scoring engines
(`src/python_backend/data_quality.py` and `src/utils/quality_assessment.py`),
the pipeline execution engine (`src/operations/workflow_pipeline.py`),
the history/undo tracker (`src/core/history_tracker.py`), and the
label-encoding operation (`src/operations/encoding.py`).

Modelling conventions:
* pandas `DataFrame`s become `Dataset`: an ordered list of named, typed
  columns whose cells are `Option Value` (`none` models a missing cell);
* Python/numpy floats are modelled as exact rationals (`ℚ`); a numpy
  result that would be `NaN` is modelled as `none` in an `Option ℚ`;
* a Python call that raises is modelled with `Except String` /
  `Option`, as indicated at every definition;
* wall-clock timestamps, uuid identifiers and purely presentational
  strings (issue descriptions) carried by the source dictionaries are
  omitted: no behaviour in the source depends on them.
-/

set_option linter.unusedVariables false

/-- A scalar cell value as it can occur inside a pandas column: a Python
string, int, float or bool.  Floats are modelled as exact rationals. -/
inductive Value where
  | vStr (s : String)
  | vInt (n : Int)
  | vFloat (q : ℚ)
  | vBool (b : Bool)
deriving DecidableEq, Repr

/-- The Python runtime type of a cell value, as observed by
`non_null.apply(type)` in `analyze_data_quality`. -/
def Value.pyType : Value → String
  | .vStr _ => "str"
  | .vInt _ => "int"
  | .vFloat _ => "float"
  | .vBool _ => "bool"

/-- Source `str(x)` for a cell value.  The rendering of floats is approximated by
`toString` on `ℚ`; only the length of the string is ever consulted by the
embedded code. -/
def Value.pyStr : Value → String
  | .vStr s => s
  | .vInt n => toString n
  | .vFloat q => toString q
  | .vBool b => cond b "True" "False"

/-- The value of a cell as a number, when it has one (`np.number` cells). -/
def Value.asNum : Value → Option ℚ
  | .vInt n => some (n : ℚ)
  | .vFloat q => some q
  | _ => none

/-- The pandas dtype of a column, as far as the embedded code consults it:
`object` (text) columns versus `np.number` columns versus the rest. -/
inductive Dtype where
  | object
  | number
  | boolean
  | datetime
deriving DecidableEq, Repr

/-- One named column of a tabular dataset.  `cells` is the ordered list of
row values; `none` is a missing (NaN/None) cell. -/
structure Column where
  name : String
  dtype : Dtype
  cells : List (Option Value)
deriving DecidableEq, Repr

/-- A pandas DataFrame: an ordered sequence of named columns. -/
structure Dataset where
  cols : List Column
deriving DecidableEq, Repr

/-- Source `df.shape[1]`: the number of columns. -/
def Dataset.ncols (d : Dataset) : Nat := d.cols.length

/-- Source `len(df)` / `df.shape[0]`: the number of rows.  In pandas every column
has the same length, so we read it off the first column (`0` when there
are no columns); the well-formedness predicate `Dataset.WF` states that
all columns agree with it. -/
def Dataset.nrows (d : Dataset) : Nat :=
  match d.cols with
  | [] => 0
  | c :: _ => c.cells.length

/-- Source `df.shape`: (row count, column count). -/
def Dataset.shape (d : Dataset) : Nat × Nat := (d.nrows, d.ncols)

/-- The dataset invariant every real DataFrame satisfies: all columns have
the same number of cells. -/
def Dataset.WF (d : Dataset) : Prop :=
  ∀ c ∈ d.cols, c.cells.length = d.nrows

instance (d : Dataset) : Decidable d.WF :=
  inferInstanceAs (Decidable (∀ c ∈ d.cols, c.cells.length = d.nrows))

/-- Source `df.columns`: the list of column names. -/
def Dataset.colNames (d : Dataset) : List String := d.cols.map Column.name

/-- Source `df.empty`: a DataFrame is empty when either axis has length zero. -/
def Dataset.isEmptyDF (d : Dataset) : Bool :=
  d.nrows = 0 || d.ncols = 0

/-- One full row of the dataset: the tuple of cells across all columns. -/
abbrev Row := List (Option Value)

/-- Row `i` of the dataset (the tuple pandas compares for `duplicated`). -/
def Dataset.row (d : Dataset) (i : Nat) : Row :=
  d.cols.map (fun c => c.cells.getD i none)

/-- All rows of the dataset, in order. -/
def Dataset.rows (d : Dataset) : List Row :=
  (List.range d.nrows).map d.row

/-- The boolean mask `df.duplicated()`: `true` at a row whose full value
tuple equals that of an earlier row (`keep="first"` semantics). -/
def dupFlagsAux (seen : List Row) : List Row → List Bool
  | [] => []
  | r :: rs => decide (r ∈ seen) :: dupFlagsAux (r :: seen) rs

/-- Source `df.duplicated()` as a list of booleans, one per row. -/
def Dataset.dupFlags (d : Dataset) : List Bool :=
  dupFlagsAux [] d.rows

/-- Source `df.duplicated().sum()`: the number of duplicate rows. -/
def Dataset.dupCount (d : Dataset) : Nat :=
  d.dupFlags.count true

/-- Keep the elements of `xs` at positions where `keep` is `true`
(positions beyond the mask are dropped, which never happens on
well-formed data). -/
def keepWhere (keep : List Bool) (xs : List (Option Value)) : List (Option Value) :=
  (xs.zip keep).filterMap (fun p => if p.2 then some p.1 else none)

/-- Source `df.drop_duplicates()`: drop every row whose full value tuple equals an
earlier row's, keeping first occurrences. -/
def Dataset.drop_duplicates (d : Dataset) : Dataset :=
  let keep := d.dupFlags.map (fun b => !b)
  ⟨d.cols.map (fun c => { c with cells := keepWhere keep c.cells })⟩

/-- Source `df.drop(columns=columns, errors="ignore")`: remove the named columns;
names not present are silently ignored. -/
def Dataset.dropCols (d : Dataset) (names : List String) : Dataset :=
  ⟨d.cols.filter (fun c => decide (c.name ∉ names))⟩

theorem dupFlagsAux_length (seen : List Row) (rs : List Row) :
    (dupFlagsAux seen rs).length = rs.length := by
  induction rs generalizing seen with
  | nil => rfl
  | cons r rs ih => simp [dupFlagsAux, ih]

theorem Dataset.rows_length (d : Dataset) : d.rows.length = d.nrows := by
  simp [Dataset.rows]

theorem Dataset.dupCount_le_nrows (d : Dataset) : d.dupCount ≤ d.nrows := by
  calc d.dupCount ≤ d.dupFlags.length := List.count_le_length true d.dupFlags
    _ = d.rows.length := dupFlagsAux_length _ _
    _ = d.nrows := d.rows_length

/-! Section: the python_backend quality scorer (`src/python_backend/data_quality.py`) -/

/-- Source `df.shape[0] * df.shape[1]`: the total cell count. -/
def Dataset.totalCells (d : Dataset) : Nat := d.nrows * d.ncols

/-- Source `df.isnull().sum().sum()`: the number of missing cells. -/
def Dataset.missingCells (d : Dataset) : Nat :=
  (d.cols.map (fun c => c.cells.countP Option.isNone)).sum

/-- Completeness in `analyze_data_quality`:
`1 - total_missing / total_cells if total_cells > 0 else 0`. -/
def dqCompleteness (d : Dataset) : ℚ :=
  if 0 < d.totalCells then 1 - (d.missingCells : ℚ) / (d.totalCells : ℚ) else 0

/-- An object-dtype column whose non-missing cells exhibit more than one
Python runtime type (`len(non_null.apply(type).unique()) > 1`). -/
def Column.isMixedTypeObject (c : Column) : Bool :=
  c.dtype = Dtype.object && 1 < ((c.cells.filterMap id).map Value.pyType).dedup.length

/-- The running `consistency_score` of `analyze_data_quality`: start from
`1.0` and subtract `0.05` for every mixed-type object column. -/
def dqConsistencyRaw (d : Dataset) : ℚ :=
  d.cols.foldl (fun acc c => if c.isMixedTypeObject then acc - 1/20 else acc) 1

/-- Consistency in `analyze_data_quality`: the running score clamped by
`max(0, min(1, consistency_score))`.  Note: a single dataset-level score,
not an average of per-column scores. -/
def dqConsistency (d : Dataset) : ℚ :=
  max 0 (min 1 (dqConsistencyRaw d))

/-- Uniqueness in `analyze_data_quality`:
`1 - duplicate_count / len(df) if len(df) > 0 else 1`. -/
def dqUniqueness (d : Dataset) : ℚ :=
  if 0 < d.nrows then 1 - (d.dupCount : ℚ) / (d.nrows : ℚ) else 1

/-- Validity in `analyze_data_quality` is the constant `0.9`. -/
def dqValidity : ℚ := 9/10

/-- The weighted overall score of `analyze_data_quality` (before the final
`int(overall_score * 100)`). -/
def dqOverall (d : Dataset) : ℚ :=
  dqCompleteness d * (2/5) + dqConsistency d * (3/10) +
    dqUniqueness d * (1/5) + dqValidity * (1/10)

/-- Source `null_count / len(df) * 100 if len(df) > 0 else 0` for one column. -/
def dqMissingPct (d : Dataset) (c : Column) : ℚ :=
  if 0 < d.nrows then (c.cells.countP Option.isNone : ℚ) / (d.nrows : ℚ) * 100 else 0

/-- Source `series.quantile(p)` with pandas' linear interpolation, over an already
non-null list of numbers; `none` models the `NaN` returned on an empty
series. -/
def quantileLin (xs : List ℚ) (p : ℚ) : Option ℚ :=
  match h : xs.length with
  | 0 => none
  | Nat.succ m =>
    let sorted := xs.insertionSort (· ≤ ·)
    let pos : ℚ := p * (m : ℚ)
    let i : Nat := (Int.floor pos).toNat
    let frac : ℚ := pos - (Int.floor pos : ℚ)
    let lower := sorted.getD i 0
    let upper := sorted.getD (i + 1) lower
    some (lower + (upper - lower) * frac)

/-- Source `detect_outliers_iqr` from `data_quality.py`: fewer than 4 values give
no outliers; otherwise values outside `[Q1 - 1.5 IQR, Q3 + 1.5 IQR]`. -/
def detect_outliers_iqr (xs : List ℚ) : List ℚ :=
  if xs.length < 4 then []
  else
    match quantileLin xs (1/4), quantileLin xs (3/4) with
    | some q1, some q3 =>
      let iqr := q3 - q1
      let lower := q1 - (3/2) * iqr
      let upper := q3 + (3/2) * iqr
      xs.filter (fun x => decide (x < lower) || decide (upper < x))
    | _, _ => []

/-- The non-missing numeric values of a column (`df[col].dropna()`). -/
def Column.numValues (c : Column) : List ℚ :=
  c.cells.filterMap (fun o => o.bind Value.asNum)

/-- A detected data-quality issue.  The presentational `description`
string of the source dictionary is omitted. -/
structure Issue where
  itype : String
  severity : String
  count : Nat
  column : Option String
deriving DecidableEq, Repr

/-- The columns with more than 20% missing values (`high_missing`). -/
def dqHighMissing (d : Dataset) : List Column :=
  d.cols.filter (fun c => decide (20 < dqMissingPct d c))

/-- The object columns with mixed runtime types (`inconsistent_cols`). -/
def dqInconsistentCols (d : Dataset) : List Column :=
  d.cols.filter Column.isMixedTypeObject

/-- The ordered issue list of `analyze_data_quality`: missing-value issue,
duplicates issue, inconsistency issue, then one outlier issue per numeric
column with IQR outliers. -/
def dqIssues (d : Dataset) : List Issue :=
  (if (dqHighMissing d).length ≠ 0 then
    [⟨"missing_values", "high", (dqHighMissing d).length, none⟩] else []) ++
  (if 0 < d.dupCount then
    [⟨"duplicates",
      if (d.nrows : ℚ) * (1/10) < (d.dupCount : ℚ) then "high" else "medium",
      d.dupCount, none⟩] else []) ++
  (if (dqInconsistentCols d).length ≠ 0 then
    [⟨"inconsistency", "medium", (dqInconsistentCols d).length, none⟩] else []) ++
  ((d.cols.filter (fun c => c.dtype = Dtype.number)).filterMap (fun c =>
    let outs := detect_outliers_iqr c.numValues
    if outs.length ≠ 0 then some ⟨"outliers", "low", outs.length, some c.name⟩
    else none))

/-- The recommendation strings of `analyze_data_quality`. -/
def dqRecommendations (d : Dataset) : List String :=
  (if (dqHighMissing d).length ≠ 0 then
    ["Handle missing values in: " ++
      String.intercalate ", " (((dqHighMissing d).map Column.name).take 3)] else []) ++
  (if 0 < d.dupCount then
    ["Remove " ++ toString d.dupCount ++ " duplicate rows to improve data quality"]
   else []) ++
  (if (dqInconsistentCols d).length ≠ 0 then
    ["Standardize data types in: " ++
      String.intercalate ", " (((dqInconsistentCols d).map Column.name).take 3)] else []) ++
  (if (dqIssues d).isEmpty then
    ["Your data quality is excellent! You can proceed with analysis."] else [])

/-- The result dictionary of `analyze_data_quality`, restricted to the
fields the source computes from data (`columnMetrics` sample values and
issue descriptions are presentational and omitted). -/
structure QualityResult where
  overallScore : ℤ
  completeness : ℚ
  consistency : ℚ
  uniqueness : ℚ
  validity : ℚ
  issues : List Issue
  recommendations : List String
deriving DecidableEq, Repr

/-- Source `analyze_data_quality` from `src/python_backend/data_quality.py`.
An empty DataFrame short-circuits to the all-zero report with the upload
recommendation; otherwise the four sub-scores are combined with weights
0.4/0.3/0.2/0.1 and scaled by `int(overall_score * 100)` (truncation,
which on these non-negative values is the floor). -/
def analyze_data_quality (d : Dataset) : QualityResult :=
  if d.isEmptyDF then
    ⟨0, 0, 0, 0, 0, [], ["Upload a dataset to begin analysis"]⟩
  else
    ⟨Int.floor (dqOverall d * 100), dqCompleteness d, dqConsistency d,
      dqUniqueness d, dqValidity, dqIssues d, dqRecommendations d⟩

/-! Section: the utils quality scorer (`src/utils/quality_assessment.py`)

Numpy scalar divisions by zero produce `NaN` (with a runtime warning, not
an exception); these are modelled as `none : Option ℚ`.  The one place
where plain Python integers are divided (`unique_patterns / len(df)` in
`calculate_consistency_score`) raises `ZeroDivisionError` on a 0-row
DataFrame with an object column; that exception is modelled as `none` in
the result of `QualityAssessor.calculate_consistency_score`, and
propagates out of `QualityAssessor.calculate_quality_score`. -/

/-- Comparison `x < b` where `x` may be `NaN`: every comparison with `NaN` is false. -/
def nanLt (x : Option ℚ) (b : ℚ) : Bool :=
  match x with
  | some q => decide (q < b)
  | none => false

/-- Comparison `b <= x` where `x` may be `NaN`: false when `x` is `NaN`. -/
def nanGe (x : Option ℚ) (b : ℚ) : Bool :=
  match x with
  | some q => decide (b ≤ q)
  | none => false

/-- Source `QualityAssessor.calculate_completeness_score`:
`((total_cells - missing_cells) / total_cells) * 100`.  On an empty
DataFrame this is the numpy division `0 / 0`, i.e. `NaN` (`none`), not a
raised error and not `0`. -/
def QualityAssessor.calculate_completeness_score (d : Dataset) : Option ℚ :=
  if d.totalCells = 0 then none
  else some ((((d.totalCells : ℚ) - (d.missingCells : ℚ)) / (d.totalCells : ℚ)) * 100)

/-- Source `len(str(x))` patterns of one column:
`df[col].dropna().apply(lambda x: len(str(x))).nunique()`. -/
def Column.uniquePatterns (c : Column) : Nat :=
  ((c.cells.filterMap id).map (fun v => v.pyStr.length)).dedup.length

/-- The per-column score inside `calculate_consistency_score`: object
columns score `max(0, 100 - unique_patterns / len(df) * 100)` (the plain
integer division raises `ZeroDivisionError` when `len(df) = 0`, modelled
as `none`); non-object columns score `100`. -/
def qaColScore (d : Dataset) (c : Column) : Option ℚ :=
  if c.dtype = Dtype.object then
    if d.nrows = 0 then none
    else some (max 0 (100 - (c.uniquePatterns : ℚ) / (d.nrows : ℚ) * 100))
  else some 100

/-- Sequencing of the per-column score loop in
`calculate_consistency_score`: collects the scores in column order, and
propagates the `ZeroDivisionError` (`none`) as the Python loop would. -/
def qaColScores (d : Dataset) : List Column → Option (List ℚ)
  | [] => some []
  | c :: cs => do
    let s ← qaColScore d c
    let rest ← qaColScores d cs
    pure (s :: rest)

/-- Source `QualityAssessor.calculate_consistency_score`: the mean of the
per-column scores, or `100` for a DataFrame without columns.  `none`
models the propagated `ZeroDivisionError`. -/
def QualityAssessor.calculate_consistency_score (d : Dataset) : Option ℚ := do
  let scores ← qaColScores d d.cols
  pure (if scores.length = 0 then 100 else scores.sum / (scores.length : ℚ))

/-- Source `QualityAssessor.calculate_uniqueness_score`:
`((total_rows - duplicate_rows) / total_rows) * 100`; `NaN` (`none`) on a
0-row DataFrame. -/
def QualityAssessor.calculate_uniqueness_score (d : Dataset) : Option ℚ :=
  if d.nrows = 0 then none
  else some ((((d.nrows : ℚ) - (d.dupCount : ℚ)) / (d.nrows : ℚ)) * 100)

/-- The IQR outlier count of one numeric column inside
`calculate_validity_score`; quantiles of an all-missing column are `NaN`,
making both bound comparisons false, hence 0 outliers. -/
def qaOutlierCount (c : Column) : Nat :=
  match quantileLin c.numValues (1/4), quantileLin c.numValues (3/4) with
  | some q1, some q3 =>
    let iqr := q3 - q1
    let lower := q1 - (3/2) * iqr
    let upper := q3 + (3/2) * iqr
    (c.numValues.filter (fun x => decide (x < lower) || decide (upper < x))).length
  | _, _ => 0

/-- Source `QualityAssessor.calculate_validity_score`: `100` when there is no
numeric column; otherwise `((total_values - total_outliers) /
total_values) * 100` with `total_values = len(df) * len(numeric_cols)`
(`NaN`, i.e. `none`, when `len(df) = 0`). -/
def QualityAssessor.calculate_validity_score (d : Dataset) : Option ℚ :=
  let numericCols := d.cols.filter (fun c => c.dtype = Dtype.number)
  if numericCols.length = 0 then some 100
  else
    let totalValues := d.nrows * numericCols.length
    let totalOutliers := (numericCols.map qaOutlierCount).sum
    if totalValues = 0 then none
    else some ((((totalValues : ℚ) - (totalOutliers : ℚ)) / (totalValues : ℚ)) * 100)

/-- The grade buckets of `calculate_quality_score`; every comparison with
a `NaN` overall score is false, so `NaN` falls through to the last
bucket. -/
def qaGrade (overall : Option ℚ) : String :=
  if nanGe overall 90 then "Excellent"
  else if nanGe overall 80 then "Very Good"
  else if nanGe overall 70 then "Good"
  else if nanGe overall 60 then "Fair"
  else "Needs Improvement"

/-- Source `QualityAssessor.generate_recommendations`: the thresholded
recommendation strings.  A `NaN` sub-score satisfies no threshold, so it
triggers no recommendation; with no recommendation at all the positive
fallback message is emitted. -/
def QualityAssessor.generate_recommendations (d : Dataset)
    (completeness : Option ℚ) (consistency : Option ℚ)
    (uniqueness : Option ℚ) (validity : Option ℚ) : List String :=
  let recs :=
    (if nanLt completeness 90 then
      [(fun pct => "Address missing values (" ++ pct ++
        "% of data). Consider imputation or removal strategies.")
        (fmtPct completeness)] else []) ++
    (if nanLt consistency 80 then
      ["Improve data consistency by standardizing text formats and ensuring uniform data entry."]
     else []) ++
    (if nanLt uniqueness 95 then
      ["Remove " ++ toString d.dupCount ++ " duplicate records to improve data uniqueness."]
     else []) ++
    (if nanLt validity 90 then
      ["Review outliers in numeric columns. Consider if they are valid data points or errors that should be corrected."]
     else [])
  if recs.isEmpty then
    ["Data quality is excellent! Consider advanced analytics or machine learning applications."]
  else recs
where
  /-- Rendering of the Python format `100 - completeness` with one decimal: one-decimal rendering of the missing
  percentage, rounding half to even as Python string formatting does. -/
  fmtPct (completeness : Option ℚ) : String :=
    match completeness with
    | none => "nan"
    | some q =>
      let x := (100 - q) * 10
      let fl := Int.floor x
      let frac := x - (fl : ℚ)
      let n : Int :=
        if frac < 1/2 then fl
        else if 1/2 < frac then fl + 1
        else if fl % 2 = 0 then fl else fl + 1
      toString (n / 10) ++ "." ++ toString ((n % 10).toNat)

/-- The report dictionary of `QualityAssessor.calculate_quality_score`. -/
structure QAReport where
  overall_score : Option ℚ
  completeness_score : Option ℚ
  consistency_score : ℚ
  uniqueness_score : Option ℚ
  validity_score : Option ℚ
  grade : String
  recommendations : List String
deriving DecidableEq, Repr

/-- Source `QualityAssessor.calculate_quality_score`.  The outer `Option` models
the `ZeroDivisionError` escaping from `calculate_consistency_score`; an
inner `none` models a `NaN` score value.  The weighted overall score is
`NaN` as soon as any weighted addend is `NaN`. -/
def QualityAssessor.calculate_quality_score (d : Dataset) : Option QAReport := do
  let consistency ← QualityAssessor.calculate_consistency_score d
  let completeness := QualityAssessor.calculate_completeness_score d
  let uniqueness := QualityAssessor.calculate_uniqueness_score d
  let validity := QualityAssessor.calculate_validity_score d
  let overall : Option ℚ :=
    match completeness, uniqueness, validity with
    | some comp, some uniq, some val =>
      some (comp * (2/5) + consistency * (3/10) + uniq * (1/5) + val * (1/10))
    | _, _, _ => none
  pure
    { overall_score := overall
      completeness_score := completeness
      consistency_score := consistency
      uniqueness_score := uniqueness
      validity_score := validity
      grade := qaGrade overall
      recommendations :=
        QualityAssessor.generate_recommendations d completeness (some consistency)
          uniqueness validity }

/-! Section: the pipeline execution engine (`src/operations/workflow_pipeline.py`) -/

/-- Step parameters (`PipelineStep.parameters`), restricted to the keys
`Pipeline.execute` reads.  Every field models `params.get(key)`: `none`
when the key is absent. -/
structure Params where
  columns : Option (List String) := none
  column : Option String := none
  method : Option String := none
  etype : Option String := none
  transformation : Option String := none
  condition : Option String := none
  drop_first : Option Bool := none
  contamination : Option ℚ := none
deriving DecidableEq, Repr

/-- One step of a pipeline (`PipelineStep`); the creation timestamp is
omitted. -/
structure PipelineStep where
  step_id : String
  name : String
  operation : String
  parameters : Params
deriving DecidableEq, Repr

/-- One entry of the per-run `execution_log`. -/
structure LogEntry where
  step : String
  operation : String
  result : String
  status : String
deriving DecidableEq, Repr

/-- One entry of the per-run aggregate `errors` list. -/
structure ErrEntry where
  step : String
  operation : String
  error : String
deriving DecidableEq, Repr

/-- Behaviour of the external library calls `Pipeline.execute` dispatches
into (`CategoricalEncoder`, `MLDataCleaner.detect_anomalies_multivariate`,
`DataCleaner.auto_clean`, `DataFrame.query` and the numpy column
transforms).  Their bodies involve sklearn models and floating-point
numerics, so the engine is embedded parametrically in them: an
`Except.error` models the call raising, and every theorem about the
engine's control flow holds for all instantiations. -/
structure LibOps where
  label_encode : Dataset → String → Except String Dataset
  onehot_encode : Dataset → List String → Bool → Except String Dataset
  detect_anomalies_multivariate :
    Dataset → Option ℚ → Option (List String) → Except String (Dataset × Nat)
  auto_clean : Dataset → Except String (Dataset × List String)
  query : Dataset → String → Except String Dataset
  np_transform : Dataset → String → String → Except String Dataset

/-- Guard used by the `impute`, `encode`, `detect_outliers`,
`remove_outliers` and `transform_column` branches:
`if column and column in result_df.columns` — the Python truthiness test
makes an absent key, an empty string, or a name not among the columns all
skip the branch body silently. -/
def colGuard (p : Params) (d : Dataset) : Option String :=
  match p.column with
  | some c => if c ≠ "" ∧ c ∈ d.colNames then some c else none
  | none => none

/-- Message of the `TypeError` raised by
`imputer.impute_column(result_df, column, method, **params)`: `params`
necessarily still contains the key `column` (the guard read it), which
collides with the positional argument, so the call always raises. -/
def imputeCallTypeError : String :=
  "MissingValueImputer.impute_column() got multiple values for argument 'column'"

/-- Message of the `TypeError` raised by
`cleaner.detect_outliers(result_df, column, method=method, **params)`:
the key `column` in `params` collides with the positional argument. -/
def outlierCallTypeError : String :=
  "DataCleaner.detect_outliers() got multiple values for argument 'column'"

/-- One iteration of the dispatch inside `Pipeline.execute`: the body of
the `try` block for a single step.  `Except.ok (d2, entry?)` gives the
dataset afterwards and the log entry appended (when any); `Except.error`
models an exception reaching the `except` handler.  Operation names
falling through the if/elif chain do nothing and log nothing. -/
def stepAction (ops : LibOps) (s : PipelineStep) (d : Dataset) :
    Except String (Dataset × Option LogEntry) :=
  let p := s.parameters
  if s.operation = "remove_duplicates" then
    let before := d.nrows
    let d2 := d.drop_duplicates
    .ok (d2, some ⟨s.name, s.operation,
      "Removed " ++ toString (before - d2.nrows) ++ " duplicates", "success"⟩)
  else if s.operation = "drop_columns" then
    let cs := p.columns.getD []
    .ok (d.dropCols cs, some ⟨s.name, s.operation,
      "Dropped " ++ toString cs.length ++ " columns", "success"⟩)
  else if s.operation = "impute" then
    match colGuard p d with
    | some _ => .error imputeCallTypeError
    | none => .ok (d, none)
  else if s.operation = "encode" then
    match colGuard p d with
    | some c => do
      let et := p.etype.getD ("label")
      let d2 ←
        if et = "label" then ops.label_encode d c
        else if et = "onehot" then ops.onehot_encode d [c] (p.drop_first.getD true)
        else pure d
      .ok (d2, some ⟨s.name, s.operation,
        "Encoded " ++ c ++ " using " ++ et, "success"⟩)
    | none => .ok (d, none)
  else if s.operation = "detect_outliers" then
    match colGuard p d with
    | some _ => .error outlierCallTypeError
    | none => .ok (d, none)
  else if s.operation = "remove_outliers" then
    match colGuard p d with
    | some _ => .error outlierCallTypeError
    | none => .ok (d, none)
  else if s.operation = "ml_anomaly_detection" then do
    let r ← ops.detect_anomalies_multivariate d p.contamination p.columns
    .ok (r.1, some ⟨s.name, s.operation,
      "Detected " ++ toString r.2 ++ " anomalies", "success"⟩)
  else if s.operation = "auto_clean" then do
    let r ← ops.auto_clean d
    .ok (r.1, some ⟨s.name, s.operation,
      "Applied " ++ toString r.2.length ++ " auto-clean operations", "success"⟩)
  else if s.operation = "filter_rows" then
    match p.condition with
    | some cond =>
      if cond = "" then .ok (d, none)
      else do
        let d2 ← ops.query d cond
        .ok (d2, some ⟨s.name, s.operation,
          "Filtered " ++ toString (d.nrows - d2.nrows) ++ " rows", "success"⟩)
    | none => .ok (d, none)
  else if s.operation = "transform_column" then
    match colGuard p d with
    | some c => do
      let t := p.transformation.getD ("log")
      let d2 ←
        if t = "log" ∨ t = "sqrt" ∨ t = "square" then ops.np_transform d c t
        else pure d
      .ok (d2, some ⟨s.name, s.operation,
        "Applied " ++ t ++ " to " ++ c, "success"⟩)
    | none => .ok (d, none)
  else .ok (d, none)

/-- The step loop of `Pipeline.execute`: returns the final dataset, the
`execution_log` and the `errors` list.  A failing step contributes an
error log entry and an error record, and the loop continues with the
dataset from before that step; the loop itself is a total function—the
`except Exception` handler lets no exception escape. -/
def execSteps (ops : LibOps) : List PipelineStep → Dataset →
    Dataset × List LogEntry × List ErrEntry
  | [], d => (d, [], [])
  | s :: rest, d =>
    match stepAction ops s d with
    | .ok (d2, entry?) =>
      let r := execSteps ops rest d2
      (r.1, entry?.toList ++ r.2.1, r.2.2)
    | .error e =>
      let r := execSteps ops rest d
      (r.1, ⟨s.name, s.operation, "Error: " ++ e, "error"⟩ :: r.2.1,
        ⟨s.name, s.operation, e⟩ :: r.2.2)

/-- The per-run execution report (timestamps and duration omitted). -/
structure ExecutionReport where
  pipeline_id : String
  pipeline_name : String
  total_steps : Nat
  successful_steps : Nat
  failed_steps : Nat
  execution_log : List LogEntry
  errors : List ErrEntry
  input_shape : Nat × Nat
  output_shape : Nat × Nat
deriving DecidableEq, Repr

/-- A pipeline (`Pipeline`); creation and modification timestamps are
omitted. -/
structure Pipeline where
  pipeline_id : String
  name : String
  description : String
  steps : List PipelineStep
  execution_history : List ExecutionReport
deriving DecidableEq, Repr

/-- Source `Pipeline.execute`: run all steps, assemble the execution
report, and append it (without truncation) to the pipeline's own
`execution_history`.  Returns the transformed dataset, the report, and
the updated pipeline state. -/
def Pipeline.execute (pl : Pipeline) (ops : LibOps) (d : Dataset) :
    Dataset × ExecutionReport × Pipeline :=
  let r := execSteps ops pl.steps d
  let report : ExecutionReport :=
    { pipeline_id := pl.pipeline_id
      pipeline_name := pl.name
      total_steps := pl.steps.length
      successful_steps := (r.2.1.filter (fun l => l.status = "success")).length
      failed_steps := r.2.2.length
      execution_log := r.2.1
      errors := r.2.2
      input_shape := d.shape
      output_shape := r.1.shape }
  (r.1, report, { pl with execution_history := pl.execution_history ++ [report] })

/-- The serialized form produced by `Pipeline.to_dict` (timestamps
omitted). -/
structure PipelineDict where
  pipeline_id : String
  name : String
  description : String
  steps : List PipelineStep
  execution_history : List ExecutionReport
deriving DecidableEq, Repr

/-- Source `Pipeline.to_dict`: serialization retains only the last 10
execution reports (`self.execution_history[-10:]`); the in-memory list
itself is never truncated. -/
def Pipeline.to_dict (pl : Pipeline) : PipelineDict :=
  { pipeline_id := pl.pipeline_id
    name := pl.name
    description := pl.description
    steps := pl.steps
    execution_history :=
      pl.execution_history.drop (pl.execution_history.length - 10) }

/-- Identity instantiation of the external library boundary: every
library call succeeds and returns its input unchanged.  Used to close
concrete runs whose step lists never dispatch into the library, so any
other instantiation would give the same results. -/
def idLib : LibOps where
  label_encode := fun d _ => .ok d
  onehot_encode := fun d _ _ => .ok d
  detect_anomalies_multivariate := fun d _ _ => .ok (d, 0)
  auto_clean := fun d => .ok (d, [])
  query := fun d _ => .ok d
  np_transform := fun d _ _ => .ok d

/-! Section: the history/undo tracker (`src/core/history_tracker.py`) -/

/-- One undo-stack entry: operation label and the dataset snapshot taken
before the operation (`data_snapshot.copy()`); the timestamp is
omitted. -/
structure HistoryEntry where
  operation : String
  data : Dataset
deriving DecidableEq, Repr

/-- The operation-history tracker: a bounded stack of snapshots. -/
structure HistoryTracker where
  history : List HistoryEntry
  max_history : Nat
deriving DecidableEq, Repr

/-- A fresh tracker: empty history, capacity 50. -/
def HistoryTracker.new : HistoryTracker := ⟨[], 50⟩

/-- Source `HistoryTracker.add_operation`: append the entry, then drop the
oldest entry (`self.history.pop(0)`) if the size exceeds
`max_history`. -/
def HistoryTracker.add_operation (t : HistoryTracker) (operation : String)
    (snap : Dataset) : HistoryTracker :=
  let h := t.history ++ [⟨operation, snap⟩]
  ⟨if t.max_history < h.length then h.drop 1 else h, t.max_history⟩

/-- Source `HistoryTracker.undo`: pop and return the most recent snapshot,
or `none` on an empty history.  The popped entry is discarded: there is
no redo. -/
def HistoryTracker.undo (t : HistoryTracker) : Option Dataset × HistoryTracker :=
  match t.history.getLast? with
  | some e => (some e.data, ⟨t.history.dropLast, t.max_history⟩)
  | none => (none, t)

/-! Section: label encoding (`src/operations/encoding.py`) -/

/-- The distinct non-missing values of a column, as a finite set
(`LabelEncoder` fits on `df.loc[mask, column]`). -/
def presentValues (cells : List (Option String)) : Finset String :=
  (cells.filterMap id).toFinset

/-- The integer sklearn's `LabelEncoder` assigns to a fitted value:
`fit_transform` sorts the distinct values (`np.unique`) and maps each to
its index in that sorted order, i.e. to the number of distinct present
values strictly smaller than it. -/
def labelRank (cells : List (Option String)) (v : String) : Nat :=
  ((presentValues cells).filter (fun u => u < v)).card

/-- Source `CategoricalEncoder.label_encode`, at the level of the encoded
column: non-missing cells are replaced by their `LabelEncoder` integer,
missing cells stay missing (the `notna` mask).  The column is modelled
over `String` values: on mixed-type columns the sklearn sort raises. -/
def label_encode_column (cells : List (Option String)) : List (Option Nat) :=
  cells.map (Option.map (labelRank cells))

/-- Modelled from the spec's words, for comparison with the code: label
encoding that maps each distinct non-missing value to a 0-based integer
in order of first appearance in the column. -/
def label_encode_column_spec (cells : List (Option String)) : List (Option Nat) :=
  let order := (cells.filterMap id).foldl
    (fun acc v => if v ∈ acc then acc else acc ++ [v]) []
  cells.map (Option.map (fun v => order.indexOf v))

/-! Section: concrete fixtures used by the claim theorems -/

/-- A dataset with one numeric column and 2 duplicate rows and, in
particular, no column named `X`. -/
def dsC3 : Dataset :=
  ⟨[⟨"A", Dtype.number, [some (Value.vInt 1), some (Value.vInt 1), some (Value.vInt 1)]⟩]⟩

/-- The pipeline `[remove_duplicates, drop_columns(["X"])]` of the spec's
testable property. -/
def pipeC3 : Pipeline :=
  ⟨"p1", "Dedup then drop X", "",
    [⟨"s1", "Remove Duplicates", "remove_duplicates", {}⟩,
     ⟨"s2", "Drop X", "drop_columns", { columns := some [("X" : String)] }⟩], []⟩

/-- A pipeline whose single step carries an operation name outside the
recognized dispatch set. -/
def pipeC4 : Pipeline :=
  ⟨"p2", "Unknown op", "", [⟨"s", "Bogus", "bogus_op", {}⟩], []⟩

/-- A pipeline with no steps, used to observe the growth of
`execution_history` across repeated runs. -/
def pipeC6 : Pipeline := ⟨"p6", "No steps", "", [], []⟩

/-- Iterated execution of a pipeline on `dsC3` under `idLib`, feeding each
run the pipeline state produced by the previous one. -/
def execN : Nat → Pipeline → Pipeline
  | 0, pl => pl
  | n + 1, pl => execN n (pl.execute idLib dsC3).2.2

/-- The operation names recognized by the if/elif dispatch of
`Pipeline.execute`. -/
def recognizedOperations : List String :=
  ["remove_duplicates", "drop_columns", "impute", "encode", "detect_outliers",
   "remove_outliers", "ml_anomaly_detection", "auto_clean", "filter_rows",
   "transform_column"]

/-! Section: claim theorems -/

/-- C3, counterexample.  Executing `[remove_duplicates,
drop_columns(["X"])]` on a dataset with 2 duplicate rows and no column
`X` logs the second step as a success (`df.drop(..., errors="ignore")`
ignores the missing column), not as a failure: both log entries carry
status `success` and the error list is empty, contradicting the claim
that the second step is logged as failed. -/
theorem c3_counterexample :
    ((pipeC3.execute idLib dsC3).2.1.execution_log.map LogEntry.status
      = ["success", "success"]) ∧
    (pipeC3.execute idLib dsC3).2.1.errors = [] ∧
    (pipeC3.execute idLib dsC3).2.1.failed_steps = 0 :=
  ⟨rfl, rfl, rfl⟩

/-- C3, amended.  On that pipeline and dataset the first step succeeds
with 2 rows removed and its deduplication effect is retained in the
output dataset, as claimed; but the second step also succeeds, logged as
`Dropped 1 columns`, because unknown column names are ignored rather than
raising. -/
theorem c3_amended :
    (pipeC3.execute idLib dsC3).2.1.execution_log =
      [⟨"Remove Duplicates", "remove_duplicates", "Removed 2 duplicates", "success"⟩,
       ⟨"Drop X", "drop_columns", "Dropped 1 columns", "success"⟩] ∧
    (pipeC3.execute idLib dsC3).2.1.errors = [] ∧
    (pipeC3.execute idLib dsC3).1 =
      ⟨[⟨"A", Dtype.number, [some (Value.vInt 1)]⟩]⟩ ∧
    (pipeC3.execute idLib dsC3).2.1.output_shape = (1, 1) :=
  ⟨rfl, rfl, rfl, rfl⟩

/-- C4, counterexample.  A step with the unrecognized operation name
`bogus_op` falls through the if/elif chain of `Pipeline.execute` without
appending any log entry: the execution log is empty and no step is
counted as failed, contradicting the claim that such a step is logged
with status failed. -/
theorem c4_counterexample :
    ((pipeC4.execute idLib dsC3).2.1.execution_log = []) ∧
    (pipeC4.execute idLib dsC3).2.1.failed_steps = 0 ∧
    (pipeC4.execute idLib dsC3).2.1.successful_steps = 0 ∧
    (pipeC4.execute idLib dsC3).2.1.total_steps = 1 :=
  ⟨rfl, rfl, rfl, rfl⟩

/-- C4, amended.  A step whose operation name is not one of the
recognized operation names is a silent no-op: the dataset is unchanged
and no log entry and no error record is appended at all, so the step is
counted in neither the successful nor the failed steps of the report. -/
theorem c4_amended (ops : LibOps) (s : PipelineStep) (d : Dataset)
    (h : s.operation ∉ recognizedOperations) :
    stepAction ops s d = .ok (d, none) ∧
    execSteps ops [s] d = (d, [], []) := by
  simp only [recognizedOperations, List.mem_cons, List.not_mem_nil, or_false,
    not_or] at h
  obtain ⟨h1, h2, h3, h4, h5, h6, h7, h8, h9, h10⟩ := h
  have hs : stepAction ops s d = .ok (d, none) := by
    simp [stepAction, h1, h2, h3, h4, h5, h6, h7, h8, h9, h10]
  exact ⟨hs, by simp [execSteps, hs]⟩

/-- C4, witness: the amended theorem applied to the concrete `bogus_op`
step of `pipeC4` on `dsC3`. -/
theorem c4_witness :
    ("bogus_op" ∉ recognizedOperations) ∧
    stepAction idLib ⟨"s", "Bogus", "bogus_op", {}⟩ dsC3 = .ok (dsC3, none) :=
  ⟨by decide, (c4_amended idLib ⟨"s", "Bogus", "bogus_op", {}⟩ dsC3 (by decide)).1⟩

/-- C6, counterexample.  After 11 executions of a pipeline, the
pipeline's own `execution_history` holds 11 reports: `Pipeline.execute`
appends without truncation, so the retained in-memory history is not
bounded to the last 10 runs as claimed. -/
theorem c6_counterexample :
    (execN 11 pipeC6).execution_history.length = 11 ∧
    ¬((execN 11 pipeC6).execution_history.length ≤ 10) :=
  ⟨rfl, by decide⟩

/-- C6, amended.  Every execution appends its report to the pipeline's
execution-history list without truncation; bounding to the last 10 runs
(oldest dropped first) happens only on serialization, in
`Pipeline.to_dict`, whose output history never exceeds 10 entries. -/
theorem c6_amended (ops : LibOps) (pl : Pipeline) (d : Dataset) :
    (pl.execute ops d).2.2.execution_history
      = pl.execution_history ++ [(pl.execute ops d).2.1] ∧
    pl.to_dict.execution_history
      = pl.execution_history.drop (pl.execution_history.length - 10) ∧
    pl.to_dict.execution_history.length ≤ 10 := by
  refine ⟨rfl, rfl, ?_⟩
  simp only [Pipeline.to_dict, List.length_drop]
  omega

/-- Helper: every error record produced by the step loop has a matching
execution-log entry with status `error` and message `Error: <message>`. -/
theorem execSteps_errors_logged (ops : LibOps) :
    ∀ (steps : List PipelineStep) (d : Dataset) (er : ErrEntry),
      er ∈ (execSteps ops steps d).2.2 →
      (⟨er.step, er.operation, "Error: " ++ er.error, "error"⟩ : LogEntry)
        ∈ (execSteps ops steps d).2.1 := by
  intro steps
  induction steps with
  | nil => intro d er h; simp [execSteps] at h
  | cons s rest ih =>
    intro d er h
    cases hs : stepAction ops s d with
    | ok p =>
      rw [execSteps] at h ⊢
      rw [hs] at h ⊢
      exact List.mem_append_right _ (ih p.1 er h)
    | error e =>
      rw [execSteps] at h ⊢
      rw [hs] at h ⊢
      rcases List.mem_cons.mp h with h | h
      · subst h; exact List.mem_cons_self _ _
      · exact List.mem_cons_of_mem _ (ih d er h)

/-- C2.  Failure isolation of `Pipeline.execute`: (a) when a step's
action raises, the loop records an error log entry with status `error`
and an error record carrying the exception message, and continues with
the dataset from before the failing step; (b) for every pipeline and
dataset the report's step counts, shapes, log and error lists are
consistent: total is the step count, successful counts the `success` log
entries, failed counts the error records, shapes are those of the input
and of the returned dataset, every error record has its `error`-status
log entry, and the report is appended to the pipeline history.  `execute`
is embedded as a total function: the catch-all `except` handler lets no
exception propagate to the caller. -/
theorem c2_failure_isolation :
    (∀ (ops : LibOps) (s : PipelineStep) (rest : List PipelineStep)
       (d : Dataset) (e : String),
      stepAction ops s d = .error e →
      execSteps ops (s :: rest) d =
        ((execSteps ops rest d).1,
         ⟨s.name, s.operation, "Error: " ++ e, "error"⟩ :: (execSteps ops rest d).2.1,
         ⟨s.name, s.operation, e⟩ :: (execSteps ops rest d).2.2)) ∧
    (∀ (ops : LibOps) (pl : Pipeline) (d : Dataset),
      (pl.execute ops d).2.1.total_steps = pl.steps.length ∧
      (pl.execute ops d).2.1.successful_steps =
        ((pl.execute ops d).2.1.execution_log.filter
          (fun l => l.status = "success")).length ∧
      (pl.execute ops d).2.1.failed_steps = (pl.execute ops d).2.1.errors.length ∧
      (pl.execute ops d).2.1.input_shape = d.shape ∧
      (pl.execute ops d).2.1.output_shape = (pl.execute ops d).1.shape ∧
      (∀ er ∈ (pl.execute ops d).2.1.errors,
        (⟨er.step, er.operation, "Error: " ++ er.error, "error"⟩ : LogEntry)
          ∈ (pl.execute ops d).2.1.execution_log) ∧
      (pl.execute ops d).2.2.execution_history
        = pl.execution_history ++ [(pl.execute ops d).2.1]) := by
  constructor
  · intro ops s rest d e h
    rw [execSteps, h]
  · intro ops pl d
    refine ⟨rfl, rfl, rfl, rfl, rfl, ?_, rfl⟩
    intro er her
    exact execSteps_errors_logged ops pl.steps d er her

/-- A concrete failing step: `impute` with its column present, whose
library call raises the `**params` collision `TypeError`. -/
def stepImpute : PipelineStep :=
  ⟨"si", "Impute A", "impute",
    { column := some ("A" : String), method := some ("Mean" : String) }⟩

/-- C2, witness: the failure-isolation clause applied to the concrete
failing `impute` step on `dsC3` with an empty remainder. -/
theorem c2_witness :
    stepAction idLib stepImpute dsC3 = .error imputeCallTypeError ∧
    execSteps idLib [stepImpute] dsC3 =
      (dsC3,
       [⟨"Impute A", "impute", "Error: " ++ imputeCallTypeError, "error"⟩],
       [⟨"Impute A", "impute", imputeCallTypeError⟩]) := by
  have h : stepAction idLib stepImpute dsC3 = .error imputeCallTypeError := rfl
  refine ⟨h, ?_⟩
  have h2 := c2_failure_isolation.1 idLib stepImpute [] dsC3 imputeCallTypeError h
  simpa [execSteps] using h2

/-- C10.  For the five column-guarded operations, a step whose `column`
parameter is absent or names a column not present in the current dataset
is silently skipped: the dataset is unchanged and no log entry at all is
appended (neither success nor error), so for a pipeline consisting of
such a step the successful and failed counts sum to 0 while the total
step count is 1 — strictly less. -/
theorem c10_guarded_steps (ops : LibOps) (s : PipelineStep) (d : Dataset)
    (hop : s.operation ∈ (["impute", "encode", "detect_outliers",
      "remove_outliers", "transform_column"] : List String))
    (hcol : s.parameters.column = none ∨
      ∃ c, s.parameters.column = some c ∧ c ∉ d.colNames) :
    stepAction ops s d = .ok (d, none) ∧
    execSteps ops [s] d = (d, [], []) ∧
    ∀ pl : Pipeline, pl.steps = [s] →
      (pl.execute ops d).2.1.successful_steps
        + (pl.execute ops d).2.1.failed_steps = 0 ∧
      (pl.execute ops d).2.1.total_steps = 1 := by
  have hg : colGuard s.parameters d = none := by
    rcases hcol with h | ⟨c, hc, hnc⟩
    · simp [colGuard, h]
    · simp [colGuard, hc, hnc]
  have hs : stepAction ops s d = .ok (d, none) := by
    simp only [List.mem_cons, List.not_mem_nil, or_false] at hop
    rcases hop with h | h | h | h | h <;> simp [stepAction, h, hg]
  have he : execSteps ops [s] d = (d, [], []) := by
    simp [execSteps, hs]
  refine ⟨hs, he, ?_⟩
  intro pl hpl
  simp [Pipeline.execute, hpl, he]

/-- C10, witness: the theorem applied to an `impute` step targeting the
absent column `Z` of `dsC3`. -/
theorem c10_witness :
    stepAction idLib
      ⟨"sg", "Impute Z", "impute", { column := some ("Z" : String) }⟩ dsC3
      = .ok (dsC3, none) :=
  (c10_guarded_steps idLib
    ⟨"sg", "Impute Z", "impute", { column := some ("Z" : String) }⟩ dsC3
    (by decide) (Or.inr ⟨"Z", rfl, by decide⟩)).1

/-- Helper: the effect of folding `add_operation` over any entry sequence,
starting from a tracker within capacity: the resulting history is the
suffix of the pushed entries that fits the capacity, and the capacity is
unchanged. -/
theorem history_foldl_add (es : List (String × Dataset)) :
    ∀ t : HistoryTracker, t.history.length ≤ t.max_history →
      ((es.foldl (fun a e => a.add_operation e.1 e.2) t).history
        = (t.history ++ es.map (fun e => HistoryEntry.mk e.1 e.2)).drop
            (t.history.length + es.length - t.max_history)) ∧
      (es.foldl (fun a e => a.add_operation e.1 e.2) t).max_history
        = t.max_history := by
  induction es with
  | nil =>
    intro t ht
    simp [Nat.sub_eq_zero_of_le ht]
  | cons e es ih =>
    intro t ht
    have hmax : (t.add_operation e.1 e.2).max_history = t.max_history := rfl
    by_cases hc : t.max_history < t.history.length + 1
    · have hlen : t.history.length = t.max_history := by omega
      have hh : (t.add_operation e.1 e.2).history
          = (t.history ++ [HistoryEntry.mk e.1 e.2]).drop 1 := by
        simp only [HistoryTracker.add_operation]
        rw [if_pos]
        simp only [List.length_append, List.length_singleton]
        omega
      have hcap : (t.add_operation e.1 e.2).history.length
          ≤ (t.add_operation e.1 e.2).max_history := by
        rw [hh, hmax]
        simp only [List.length_drop, List.length_append, List.length_singleton]
        omega
      obtain ⟨ih1, ih2⟩ := ih (t.add_operation e.1 e.2) hcap
      refine ⟨?_, by rw [List.foldl_cons, ih2, hmax]⟩
      rw [List.foldl_cons, ih1, hh, hmax]
      simp only [List.length_drop, List.length_append, List.length_singleton,
        List.length_cons, List.map_cons, List.length_nil]
      have h1 : (1 : Nat) ≤ (t.history ++ [HistoryEntry.mk e.1 e.2]).length := by
        simp
      rw [← List.drop_append_of_le_length h1, List.drop_drop]
      have hx : t.history
          ++ HistoryEntry.mk e.1 e.2 :: List.map (fun e => HistoryEntry.mk e.1 e.2) es
          = (t.history ++ [HistoryEntry.mk e.1 e.2])
            ++ List.map (fun e => HistoryEntry.mk e.1 e.2) es := by
        simp
      rw [hx]
      congr 1
      omega
    · have hh : (t.add_operation e.1 e.2).history
          = t.history ++ [HistoryEntry.mk e.1 e.2] := by
        simp only [HistoryTracker.add_operation]
        rw [if_neg]
        simp only [List.length_append, List.length_singleton]
        omega
      have hcap : (t.add_operation e.1 e.2).history.length
          ≤ (t.add_operation e.1 e.2).max_history := by
        rw [hh, hmax]
        simp only [List.length_append, List.length_singleton]
        omega
      obtain ⟨ih1, ih2⟩ := ih (t.add_operation e.1 e.2) hcap
      refine ⟨?_, by rw [List.foldl_cons, ih2, hmax]⟩
      rw [List.foldl_cons, ih1, hh, hmax]
      simp only [List.length_append, List.length_singleton, List.length_cons,
        List.length_nil, List.map_cons, List.append_assoc, List.singleton_append]
      congr 1
      omega

/-- C7.  Folding any sequence of `record` operations into a fresh
capacity-50 tracker leaves exactly the last 50 pushed entries, in push
order (eviction is FIFO, one oldest entry at a time, and the
most-recent-first order used by `undo` is preserved); the stack size
never exceeds 50.  In particular, pushing any 51 entries leaves entries 2
through 51: the 51-entry sequence with its head dropped. -/
theorem c7_capacity (es : List (String × Dataset)) :
    ((es.foldl (fun a e => a.add_operation e.1 e.2) HistoryTracker.new).history
      = (es.map (fun e => HistoryEntry.mk e.1 e.2)).drop (es.length - 50)) ∧
    (es.foldl (fun a e => a.add_operation e.1 e.2) HistoryTracker.new).history.length
      ≤ 50 ∧
    ∀ f : Nat → String × Dataset,
      (((List.range 51).map f).foldl
        (fun a e => a.add_operation e.1 e.2) HistoryTracker.new).history
        = (((List.range 51).map f).map (fun e => HistoryEntry.mk e.1 e.2)).drop 1 := by
  have key : ∀ l : List (String × Dataset),
      (l.foldl (fun a e => a.add_operation e.1 e.2) HistoryTracker.new).history
        = (l.map (fun e => HistoryEntry.mk e.1 e.2)).drop (l.length - 50) := by
    intro l
    have h := (history_foldl_add l HistoryTracker.new (by simp [HistoryTracker.new])).1
    simpa [HistoryTracker.new] using h
  refine ⟨key es, ?_, ?_⟩
  · rw [key es]
    simp only [List.length_drop, List.length_map]
    omega
  · intro f
    rw [key ((List.range 51).map f)]
    simp

/-- Helper: the entry just pushed is the last element of the history after
`add_operation`, provided the capacity is positive (the real tracker's
capacity is 50). -/
theorem add_operation_getLast (t : HistoryTracker) (lab : String) (d0 : Dataset)
    (hpos : 0 < t.max_history) :
    (t.add_operation lab d0).history.getLast? = some (HistoryEntry.mk lab d0) := by
  show (if t.max_history < (t.history ++ [HistoryEntry.mk lab d0]).length
    then (t.history ++ [HistoryEntry.mk lab d0]).drop 1
    else t.history ++ [HistoryEntry.mk lab d0]).getLast? = some (HistoryEntry.mk lab d0)
  by_cases hc : t.max_history < (t.history ++ [HistoryEntry.mk lab d0]).length
  · rw [if_pos hc]
    have h1 : (1 : Nat) ≤ t.history.length := by
      simp only [List.length_append, List.length_singleton] at hc
      omega
    rw [List.drop_append_of_le_length h1, List.getLast?_concat]
  · rw [if_neg hc, List.getLast?_concat]

/-- C8.  `undo` on a fresh (empty) tracker returns `none` and leaves the
tracker unchanged; after `record(lab, D0)` on any capacity-50 tracker,
`undo` returns exactly the snapshot `D0` (structural equality of the
dataset value: column order, dtypes and cells included) and the popped
entry is discarded from the stack — single-step linear undo with no
redo. -/
theorem c8_undo (t : HistoryTracker) (lab : String) (d0 : Dataset)
    (hcap : t.max_history = 50) :
    HistoryTracker.new.undo = (none, HistoryTracker.new) ∧
    (t.add_operation lab d0).undo
      = (some d0, ⟨(t.add_operation lab d0).history.dropLast, 50⟩) := by
  refine ⟨rfl, ?_⟩
  have h := add_operation_getLast t lab d0 (by omega)
  rw [HistoryTracker.undo, h]
  have hm : (t.add_operation lab d0).max_history = 50 := hcap
  rw [hm]

/-- C8, witness: recording one snapshot on a fresh tracker and undoing
returns that snapshot. -/
theorem c8_witness :
    HistoryTracker.new.max_history = 50 ∧
    (HistoryTracker.new.add_operation ("op") dsC3).undo
      = (some dsC3,
        ⟨(HistoryTracker.new.add_operation ("op") dsC3).history.dropLast, 50⟩) :=
  ⟨rfl, (c8_undo HistoryTracker.new ("op") dsC3 rfl).2⟩

/-- Helper: the sklearn rank of `"b"` in the column `["b", "a"]` is 1. -/
theorem rank_b_eq : labelRank [some ("b"), some ("a")] ("b") = 1 := by
  have h : (['a'] : List Char) < ['b'] := by decide
  simp [labelRank, presentValues, Finset.filter_insert, Finset.filter_singleton,
    lt_self_iff_false, h]

/-- Helper: the sklearn rank of `"a"` in the column `["b", "a"]` is 0. -/
theorem rank_a_eq : labelRank [some ("b"), some ("a")] ("a") = 0 := by
  have h : (['a'] : List Char) ≤ ['b'] := by decide
  simp [labelRank, presentValues, Finset.filter_insert, Finset.filter_singleton,
    lt_self_iff_false, h]

/-- C9, counterexample.  On the column `["b", "a"]` the code's label
encoding (sklearn `LabelEncoder`, sorted classes) yields `[1, 0]`, while
the claimed order-of-first-appearance encoding yields `[0, 1]`: the claim
that each distinct value maps to its first-appearance index is false. -/
theorem c9_counterexample :
    label_encode_column [some ("b"), some ("a")] = [some 1, some 0] ∧
    label_encode_column_spec [some ("b"), some ("a")] = [some 0, some 1] ∧
    label_encode_column [some ("b"), some ("a")]
      ≠ label_encode_column_spec [some ("b"), some ("a")] := by
  have h1 : label_encode_column [some ("b"), some ("a")] = [some 1, some 0] := by
    simp [label_encode_column, rank_b_eq, rank_a_eq]
  have h2 : label_encode_column_spec [some ("b"), some ("a")] = [some 0, some 1] := by
    decide
  refine ⟨h1, h2, ?_⟩
  rw [h1, h2]
  decide

/-- C9, amended.  The code's label encoding maps each distinct non-missing
value to a 0-based integer in the *sorted* order of the distinct values
(its rank), not in order of first appearance: ranks are strictly
order-isomorphic to the values, equal values (and only equal values) get
equal codes, codes lie in `[0, #distinct)`, the encoded column has the
same length, and missing cells stay missing.  Determinism is immediate:
the encoding is a function of the column value. -/
theorem c9_amended (cells : List (Option String)) (vi vj : String)
    (hvi : vi ∈ cells.filterMap id) (hvj : vj ∈ cells.filterMap id) :
    ((labelRank cells vi < labelRank cells vj ↔ vi < vj) ∧
     (labelRank cells vi = labelRank cells vj ↔ vi = vj)) ∧
    labelRank cells vi < (presentValues cells).card ∧
    (label_encode_column cells).length = cells.length ∧
    (∀ i : Nat, cells[i]? = some none →
      (label_encode_column cells)[i]? = some none) ∧
    (∀ i : Nat, ∀ v : String, cells[i]? = some (some v) →
      (label_encode_column cells)[i]? = some (some (labelRank cells v))) := by
  have hvi' : vi ∈ presentValues cells := List.mem_toFinset.mpr hvi
  have hvj' : vj ∈ presentValues cells := List.mem_toFinset.mpr hvj
  have mono : ∀ a b : String, a ∈ presentValues cells → a < b →
      labelRank cells a < labelRank cells b := by
    intro a b ha hab
    apply Finset.card_lt_card
    have hsub : (presentValues cells).filter (fun u => u < a)
        ⊆ (presentValues cells).filter (fun u => u < b) := by
      intro u hu
      rw [Finset.mem_filter] at hu ⊢
      exact ⟨hu.1, lt_trans hu.2 hab⟩
    rw [Finset.ssubset_iff_of_subset hsub]
    refine ⟨a, Finset.mem_filter.mpr ⟨ha, hab⟩, fun hmem => ?_⟩
    exact absurd (Finset.mem_filter.mp hmem).2 (lt_irrefl a)
  have anti : ∀ a b : String, a ≤ b → labelRank cells a ≤ labelRank cells b := by
    intro a b hab
    apply Finset.card_le_card
    intro u hu
    rw [Finset.mem_filter] at hu ⊢
    exact ⟨hu.1, lt_of_lt_of_le hu.2 hab⟩
  have hlt : labelRank cells vi < labelRank cells vj ↔ vi < vj := by
    constructor
    · intro h
      by_contra hn
      exact absurd (anti vj vi (not_lt.mp hn)) (not_le.mpr h)
    · exact mono vi vj hvi'
  refine ⟨⟨hlt, ?_⟩, ?_, ?_, ?_, ?_⟩
  · constructor
    · intro h
      rcases lt_trichotomy vi vj with hc | hc | hc
      · exact absurd (mono vi vj hvi' hc) (by omega)
      · exact hc
      · exact absurd (mono vj vi hvj' hc) (by omega)
    · intro h
      rw [h]
  · apply Finset.card_lt_card
    rw [Finset.ssubset_iff_of_subset (Finset.filter_subset _ _)]
    exact ⟨vi, hvi', fun hmem =>
      absurd (Finset.mem_filter.mp hmem).2 (lt_irrefl vi)⟩
  · simp [label_encode_column]
  · intro i h
    rw [label_encode_column, List.getElem?_map, h]
    rfl
  · intro i v h
    rw [label_encode_column, List.getElem?_map, h]
    rfl

/-- C9, witness: the order-isomorphism clause applied to the concrete
column `["b", "a"]` with the values `a` and `b`. -/
theorem c9_witness :
    (("a" : String) ∈ ([some ("b"), some ("a")] : List (Option String)).filterMap id) ∧
    (labelRank [some ("b"), some ("a")] ("a")
      < labelRank [some ("b"), some ("a")] ("b") ↔ ("a" : String) < ("b" : String)) :=
  ⟨by decide,
    (c9_amended [some ("b"), some ("a")] ("a") ("b") (by decide) (by decide)).1.1⟩

/-- Helper: on a well-formed dataset there are at most as many missing
cells as cells. -/
theorem missing_le_total (d : Dataset) (h : d.WF) :
    d.missingCells ≤ d.totalCells := by
  have h1 : d.missingCells ≤ (d.cols.map (fun c => c.cells.length)).sum := by
    apply List.sum_le_sum
    intro c hc
    exact List.countP_le_length _
  have h2 : (d.cols.map (fun c => c.cells.length)).sum = d.ncols * d.nrows := by
    have h3 := List.sum_eq_card_nsmul (d.cols.map (fun c => c.cells.length)) d.nrows
      (by
        intro x hx
        obtain ⟨c, hc, rfl⟩ := List.mem_map.mp hx
        exact h c hc)
    simpa [Dataset.ncols] using h3
  calc d.missingCells ≤ (d.cols.map (fun c => c.cells.length)).sum := h1
    _ = d.ncols * d.nrows := h2
    _ = d.totalCells := by rw [Dataset.totalCells, Nat.mul_comm]

/-- Helper: the completeness sub-score of `analyze_data_quality` lies in
the unit interval on well-formed data. -/
theorem dqCompleteness_mem (d : Dataset) (h : d.WF) :
    0 ≤ dqCompleteness d ∧ dqCompleteness d ≤ 1 := by
  rw [dqCompleteness]
  by_cases hp : 0 < d.totalCells
  · rw [if_pos hp]
    have hpos : (0 : ℚ) < (d.totalCells : ℚ) := by exact_mod_cast hp
    have hle : (d.missingCells : ℚ) ≤ (d.totalCells : ℚ) := by
      exact_mod_cast missing_le_total d h
    constructor
    · have : (d.missingCells : ℚ) / (d.totalCells : ℚ) ≤ 1 :=
        (div_le_one hpos).mpr hle
      linarith
    · have : 0 ≤ (d.missingCells : ℚ) / (d.totalCells : ℚ) :=
        div_nonneg (by positivity) (le_of_lt hpos)
      linarith
  · rw [if_neg hp]
    norm_num

/-- Helper: the consistency sub-score of `analyze_data_quality` lies in
the unit interval (it is clamped). -/
theorem dqConsistency_mem (d : Dataset) :
    0 ≤ dqConsistency d ∧ dqConsistency d ≤ 1 := by
  rw [dqConsistency]
  exact ⟨le_max_left _ _,
    max_le (by norm_num) (min_le_left _ _)⟩

/-- Helper: the uniqueness sub-score of `analyze_data_quality` lies in
the unit interval. -/
theorem dqUniqueness_mem (d : Dataset) :
    0 ≤ dqUniqueness d ∧ dqUniqueness d ≤ 1 := by
  rw [dqUniqueness]
  by_cases hp : 0 < d.nrows
  · rw [if_pos hp]
    have hpos : (0 : ℚ) < (d.nrows : ℚ) := by exact_mod_cast hp
    have hle : (d.dupCount : ℚ) ≤ (d.nrows : ℚ) := by
      exact_mod_cast d.dupCount_le_nrows
    constructor
    · have : (d.dupCount : ℚ) / (d.nrows : ℚ) ≤ 1 := (div_le_one hpos).mpr hle
      linarith
    · have : 0 ≤ (d.dupCount : ℚ) / (d.nrows : ℚ) :=
        div_nonneg (by positivity) (le_of_lt hpos)
      linarith
  · rw [if_neg hp]
    norm_num

/-- Helper: the weighted overall score of `analyze_data_quality` lies in
the unit interval on well-formed data. -/
theorem dqOverall_mem (d : Dataset) (h : d.WF) :
    0 ≤ dqOverall d ∧ dqOverall d ≤ 1 := by
  obtain ⟨hc0, hc1⟩ := dqCompleteness_mem d h
  obtain ⟨hs0, hs1⟩ := dqConsistency_mem d
  obtain ⟨hu0, hu1⟩ := dqUniqueness_mem d
  rw [dqOverall, dqValidity]
  constructor <;> nlinarith

/-- C1, counterexample.  The `QualityAssessor` scoring engine (the second
engine cited by the claim) does not degrade to an overall score of 0 on
the empty dataset: `calculate_completeness_score` divides `0 / 0`, the
overall score is `NaN` (not `0`, and outside `[0, 100]`), and — because a
`NaN` sub-score satisfies no recommendation threshold — the single
recommendation returned is the congratulatory "excellent" message rather
than an instructive one. -/
theorem c1_counterexample :
    ((QualityAssessor.calculate_quality_score ⟨[]⟩).map QAReport.overall_score
      = some none) ∧
    ¬((QualityAssessor.calculate_quality_score ⟨[]⟩).map QAReport.overall_score
      = some (some 0)) ∧
    ((QualityAssessor.calculate_quality_score ⟨[]⟩).map QAReport.recommendations
      = some ["Data quality is excellent! Consider advanced analytics or machine learning applications."]) := by
  have h1 : (QualityAssessor.calculate_quality_score ⟨[]⟩).map QAReport.overall_score
      = some none := rfl
  refine ⟨h1, ?_, rfl⟩
  rw [h1]
  intro hcontra
  exact Option.noConfusion (Option.some.inj hcontra)

/-- C1, amended.  The `analyze_data_quality` engine satisfies the claim:
for every well-formed dataset its integer overall score lies in
`[0, 100]`, and on an empty dataset it short-circuits to an overall score
of 0 with the instructive recommendation to upload a dataset.  The
`QualityAssessor` engine violates the empty-dataset clause (see the
counterexample). -/
theorem c1_amended (d : Dataset) (h : d.WF) :
    (0 ≤ (analyze_data_quality d).overallScore ∧
      (analyze_data_quality d).overallScore ≤ 100) ∧
    (d.isEmptyDF = true →
      (analyze_data_quality d).overallScore = 0 ∧
      (analyze_data_quality d).recommendations
        = ["Upload a dataset to begin analysis"]) := by
  by_cases he : d.isEmptyDF
  · rw [analyze_data_quality, if_pos he]
    exact ⟨⟨le_refl 0, by norm_num⟩, fun _ => ⟨rfl, rfl⟩⟩
  · rw [analyze_data_quality, if_neg he]
    refine ⟨?_, fun hcontra => absurd hcontra he⟩
    obtain ⟨h0, h1⟩ := dqOverall_mem d h
    constructor
    · have : (0 : ℚ) ≤ dqOverall d * 100 := by linarith
      exact Int.floor_nonneg.mpr this
    · have : dqOverall d * 100 ≤ 100 := by linarith
      calc Int.floor (dqOverall d * 100) ≤ Int.floor (100 : ℚ) :=
            Int.floor_le_floor this
        _ = 100 := by norm_num

/-- C1, witness: the amended theorem applied to the empty dataset. -/
theorem c1_witness :
    (Dataset.mk []).WF ∧
    (analyze_data_quality ⟨[]⟩).overallScore = 0 ∧
    (analyze_data_quality ⟨[]⟩).recommendations
      = ["Upload a dataset to begin analysis"] :=
  ⟨by decide, (c1_amended ⟨[]⟩ (by decide)).2 rfl⟩

/-- Modelled from the spec's words, for comparison with the code: a
consistency score in which each text (object) column with mixed value
types scores `100 - 5 = 95`, every other column scores `100`, and the
per-column scores are averaged (`100` when there is no column to
average). -/
def consistency_score_spec (d : Dataset) : ℚ :=
  if d.cols.length = 0 then 100
  else (d.cols.map (fun c => if c.isMixedTypeObject then (95 : ℚ) else 100)).sum
    / (d.cols.length : ℚ)

/-- A mixed-type object column: a string and an int. -/
def colA : Column := ⟨"A", Dtype.object, [some (Value.vStr ("x")), some (Value.vInt 1)]⟩

/-- A numeric column. -/
def colB : Column := ⟨"B", Dtype.number, [some (Value.vFloat 1), some (Value.vFloat 2)]⟩

/-- A dataset with one mixed-type object column and one numeric column. -/
def dsC5 : Dataset := ⟨[colA, colB]⟩

/-- Helper: closed form of the running `consistency_score` fold of
`analyze_data_quality`: starting value minus one twentieth per mixed-type
object column. -/
theorem dqConsistencyRaw_closed (l : List Column) :
    ∀ acc : ℚ,
      l.foldl (fun a c => if c.isMixedTypeObject then a - 1/20 else a) acc
        = acc - (l.countP Column.isMixedTypeObject : ℚ) / 20 := by
  induction l with
  | nil =>
    intro acc
    simp
  | cons c cs ih =>
    intro acc
    rw [List.foldl_cons, List.countP_cons]
    by_cases hm : c.isMixedTypeObject
    · rw [if_pos hm, ih, if_pos hm]
      push_cast
      ring
  
    · rw [if_neg hm, ih, if_neg hm]
      push_cast
      ring

/-- Helper: the `QualityAssessor` per-column consistency scores on
`dsC5`: the object column scores `max(0, 100 - 1/2*100) = 50` (its two
values render to strings of one distinct length), the numeric column
scores 100. -/
theorem qaColScores_dsC5 : qaColScores dsC5 dsC5.cols = some [50, 100] := by
  have hA : qaColScore dsC5 colA = some 50 := by
    rw [qaColScore]
    have hobj : colA.dtype = Dtype.object := rfl
    have hrows : dsC5.nrows = 2 := rfl
    have hpat : colA.uniquePatterns = 1 := by decide
    rw [if_pos hobj, if_neg (by rw [hrows]; omega), hpat, hrows]
    norm_num
  have hB : qaColScore dsC5 colB = some 100 := by
    rw [qaColScore]
    have hobj : ¬(colB.dtype = Dtype.object) := by decide
    rw [if_neg hobj]
  show qaColScores dsC5 [colA, colB] = some [50, 100]
  rw [qaColScores, hA, qaColScores, hB, qaColScores]
  rfl

/-- Helper: the `QualityAssessor` consistency score on `dsC5` is the mean
`(50 + 100) / 2 = 75`. -/
theorem qa_consistency_dsC5 :
    QualityAssessor.calculate_consistency_score dsC5 = some 75 := by
  rw [QualityAssessor.calculate_consistency_score, qaColScores_dsC5]
  norm_num
  exact List.cons_ne_nil _ _

/-- Helper: the `analyze_data_quality` consistency score on `dsC5` is the
dataset-level `1 - 0.05 = 0.95`. -/
theorem dq_consistency_dsC5 : dqConsistency dsC5 = 19/20 := by
  rw [dqConsistency, dqConsistencyRaw, dqConsistencyRaw_closed]
  have hcount : dsC5.cols.countP Column.isMixedTypeObject = 1 := by decide
  rw [hcount]
  norm_num [min_def, max_def]

/-- Helper: the spec-worded averaged consistency score on `dsC5` is
`(95 + 100) / 2 = 97.5`. -/
theorem spec_consistency_dsC5 : consistency_score_spec dsC5 = 195/2 := by
  rw [consistency_score_spec]
  have hA : colA.isMixedTypeObject = true := by decide
  have hB : colB.isMixedTypeObject = false := by decide
  have hc : dsC5.cols = [colA, colB] := rfl
  rw [if_neg (by rw [hc]; simp), hc]
  rw [List.map_cons, List.map_cons, List.map_nil, hA, hB]
  norm_num

/-- C5, counterexample.  On `dsC5` the claim's algorithm (5-point
per-column penalty, non-text columns 100, scores averaged) gives
`(95 + 100) / 2 = 97.5`, but neither implementation computes that:
`analyze_data_quality` keeps one dataset-level score, `1 - 0.05 = 0.95`
(95 on the 0-100 scale, no averaging), and
`QualityAssessor.calculate_consistency_score` averages a string-length
variability score that never consults value types, giving 75. -/
theorem c5_counterexample :
    consistency_score_spec dsC5 = 195/2 ∧
    dqConsistency dsC5 * 100 = 95 ∧
    QualityAssessor.calculate_consistency_score dsC5 = some 75 ∧
    dqConsistency dsC5 * 100 ≠ consistency_score_spec dsC5 ∧
    QualityAssessor.calculate_consistency_score dsC5
      ≠ some (consistency_score_spec dsC5) := by
  refine ⟨spec_consistency_dsC5, ?_, qa_consistency_dsC5, ?_, ?_⟩
  · rw [dq_consistency_dsC5]
    norm_num
  · rw [dq_consistency_dsC5, spec_consistency_dsC5]
    norm_num
  · rw [qa_consistency_dsC5, spec_consistency_dsC5]
    intro hcontra
    have := Option.some.inj hcontra
    norm_num at this

/-- Helper: every score emitted by the per-column loop of
`calculate_consistency_score` lies in `[0, 100]`. -/
theorem qaColScore_mem (d : Dataset) (c : Column) (q : ℚ)
    (h : qaColScore d c = some q) : 0 ≤ q ∧ q ≤ 100 := by
  rw [qaColScore] at h
  by_cases ho : c.dtype = Dtype.object
  · rw [if_pos ho] at h
    by_cases hr : d.nrows = 0
    · rw [if_pos hr] at h
      exact Option.noConfusion h
    · rw [if_neg hr] at h
      have hq : q = max 0 (100 - (c.uniquePatterns : ℚ) / (d.nrows : ℚ) * 100) :=
        (Option.some.inj h).symm
      have hx : 0 ≤ (c.uniquePatterns : ℚ) / (d.nrows : ℚ) * 100 := by positivity
      constructor
      · rw [hq]
        exact le_max_left _ _
      · rw [hq]
        apply max_le (by norm_num)
        linarith
  · rw [if_neg ho] at h
    have hq : q = 100 := (Option.some.inj h).symm
    rw [hq]
    norm_num

/-- Helper: every element of a successfully collected score list comes
from `qaColScore` on some column of the list. -/
theorem qaColScores_mem (d : Dataset) :
    ∀ (l : List Column) (res : List ℚ), qaColScores d l = some res →
      ∀ q ∈ res, ∃ c ∈ l, qaColScore d c = some q := by
  intro l
  induction l with
  | nil =>
    intro res h q hq
    rw [qaColScores] at h
    rw [← Option.some.inj h] at hq
    exact absurd hq (List.not_mem_nil q)
  | cons c cs ih =>
    intro res h q hq
    rw [qaColScores] at h
    cases hc : qaColScore d c with
    | none => rw [hc] at h; exact Option.noConfusion h
    | some s =>
      rw [hc] at h
      cases hcs : qaColScores d cs with
      | none => rw [hcs] at h; exact Option.noConfusion h
      | some rest =>
        rw [hcs] at h
        have hres : res = s :: rest := by
          cases h
          rfl
        rw [hres] at hq
        rcases List.mem_cons.mp hq with hq | hq
        · exact ⟨c, List.mem_cons_self c cs, by rw [← hq] at hc; exact hc⟩
        · obtain ⟨c2, hc2, hc2s⟩ := ih rest hcs q hq
          exact ⟨c2, List.mem_cons_of_mem c hc2, hc2s⟩

/-- C5, amended.  What the two implementations actually compute: the
`analyze_data_quality` consistency is the single dataset-level value
`clamp(1 - 0.05 * #mixedTypeObjectColumns)` into `[0, 1]` — a 5-point
penalty per mixed column against the dataset total, with no per-column
averaging; the `QualityAssessor` consistency averages per-column
string-length-variability scores (value types are never consulted) and,
whenever it returns, its value lies in `[0, 100]`. -/
theorem c5_amended :
    (∀ d : Dataset, dqConsistency d
      = max 0 (min 1 (1 - (d.cols.countP Column.isMixedTypeObject : ℚ) / 20))) ∧
    (∀ (d : Dataset) (q : ℚ),
      QualityAssessor.calculate_consistency_score d = some q →
      0 ≤ q ∧ q ≤ 100) := by
  constructor
  · intro d
    rw [dqConsistency, dqConsistencyRaw, dqConsistencyRaw_closed]
  · intro d q h
    rw [QualityAssessor.calculate_consistency_score] at h
    cases hs : qaColScores d d.cols with
    | none => rw [hs] at h; exact Option.noConfusion h
    | some scores =>
      rw [hs] at h
      have hq : q = if scores.length = 0 then 100
          else scores.sum / (scores.length : ℚ) := by
        cases h
        rfl
      have hmem : ∀ x ∈ scores, 0 ≤ x ∧ x ≤ 100 := by
        intro x hx
        obtain ⟨c, hc, hcs⟩ := qaColScores_mem d d.cols scores hs x hx
        exact qaColScore_mem d c x hcs
      by_cases hlen : scores.length = 0
      · rw [hq, if_pos hlen]
        norm_num
      · rw [hq, if_neg hlen]
        have hpos : (0 : ℚ) < (scores.length : ℚ) := by
          have : 0 < scores.length := Nat.pos_of_ne_zero hlen
          exact_mod_cast this
        have hsum0 : 0 ≤ scores.sum :=
          List.sum_nonneg (fun x hx => (hmem x hx).1)
        have hsum1 : scores.sum ≤ (scores.length : ℚ) * 100 := by
          have := List.sum_le_card_nsmul scores 100 (fun x hx => (hmem x hx).2)
          simpa [nsmul_eq_mul] using this
        constructor
        · exact div_nonneg hsum0 (le_of_lt hpos)
        · rw [div_le_iff₀ hpos]
          linarith

/-- C5, witness: the closed form and the bounds applied to the concrete
dataset `dsC5`. -/
theorem c5_witness :
    QualityAssessor.calculate_consistency_score dsC5 = some 75 ∧
    (0 ≤ (75 : ℚ) ∧ (75 : ℚ) ≤ 100) ∧
    dqConsistency dsC5
      = max 0 (min 1 (1 - (dsC5.cols.countP Column.isMixedTypeObject : ℚ) / 20)) :=
  ⟨qa_consistency_dsC5, c5_amended.2 dsC5 75 qa_consistency_dsC5, c5_amended.1 dsC5⟩
